import Mathlib

/-!
Verification of `transcribe.py` (BanglaSTT), a CLI tool that validates an
audio path, patches the speech library's audio loader to call an external
decoder by absolute path, runs transcription and optionally persists the
transcript to `output.txt`.

The Python code is shallowly embedded: the filesystem is a predicate
`String → Bool` (`os.path.exists`), external library behaviour (model
loading, transcription) is an abstract `WhisperWorld` of `Except` results,
and every observable side effect (a `print`, a file write, an attempt to
load a model artifact) is recorded in an event trace.  Raw 16-bit samples
are modelled over `ℚ`: every value `v/32768` with `v` a 16-bit integer is
exactly representable in IEEE binary32, so the rational model is exact.
-/

/-! ## Path handling: `pathlib.Path(p).suffix` and `os.path.basename` -/

/-- Split a character list at every occurrence of `sep` (like
`str.split(sep)`: `n` separators yield `n+1` pieces, possibly empty). -/
def splitChars (sep : Char) : List Char → List (List Char)
  | [] => [[]]
  | c :: cs =>
    match splitChars sep cs with
    | [] => if c == sep then [[], []] else [[c]]
    | h :: t => if c == sep then [] :: h :: t else (c :: h) :: t

/-- Final path component as `pathlib` computes it: split on `/`, drop empty
and `.` components, take the last one (`Path("a/b/").name = "b"`,
`Path("a/.").name = "a"`). -/
def pyName (p : String) : String :=
  ⟨((splitChars '/' p.data).filter
      (fun s => !s.isEmpty && s != ['.'])).getLastD []⟩

/-- `PurePath.suffix` of a component name: with `i = name.rfind('.')`, the
slice `name[i:]` when `0 < i < len(name) - 1`, else the empty string. -/
def pySuffix (name : String) : String :=
  let cs := name.data
  match cs.reverse.findIdx? (fun c => c == '.') with
  | none => ""
  | some j =>
    let i := cs.length - 1 - j
    if 0 < i && i < cs.length - 1 then ⟨cs.drop i⟩ else ""

/-- `Path(file_path).suffix` for a full path string. -/
def file_suffix (p : String) : String := pySuffix (pyName p)

/-- `os.path.basename`: the text after the last `/`. -/
def basename (p : String) : String := ⟨(splitChars '/' p.data).getLastD []⟩

/-- ASCII lower-casing of one character.  `str.lower()` is Unicode-aware,
but no non-ASCII character lower-cases to any character of the ASCII
allow-list strings compared against, so on every comparison the code makes
this is extensionally the same function. -/
def lowerChar (c : Char) : Char :=
  if 65 ≤ c.toNat && c.toNat ≤ 90 then Char.ofNat (c.toNat + 32) else c

/-- `str.lower()`. -/
def lowerStr (s : String) : String := ⟨s.data.map lowerChar⟩

/-! ## Sorting strings as Python `sorted` does (code-point lexicographic) -/

def charsLe : List Char → List Char → Bool
  | [], _ => true
  | _ :: _, [] => false
  | a :: as, b :: bs =>
    if a.toNat < b.toNat then true
    else if b.toNat < a.toNat then false
    else charsLe as bs

def strLe (a b : String) : Bool := charsLe a.data b.data

def insertStr (s : String) : List String → List String
  | [] => [s]
  | t :: ts => if strLe s t then s :: t :: ts else t :: insertStr s ts

def sortStrings : List String → List String
  | [] => []
  | s :: ss => insertStr s (sortStrings ss)

/-! ## `validate_audio_file` -/

/-- The allow-list `supported_formats` of `validate_audio_file`
(a Python set literal; membership is order-independent). -/
def supported_formats : List String :=
  [".mp3", ".wav", ".m4a", ".mp4", ".webm", ".mpeg", ".mpga"]

/-- `validate_audio_file(file_path)`.  The filesystem is passed in as the
predicate `path_exists` (`os.path.exists`); the returned list is the
sequence of diagnostic lines printed, in order. -/
def validate_audio_file (path_exists : String → Bool) (file_path : String) :
    Bool × List String :=
  if !path_exists file_path then
    (false, ["❌ Error: File '" ++ (file_path ++ "' does not exist.")])
  else
    let file_extension := lowerStr (file_suffix file_path)
    if !supported_formats.contains file_extension then
      (false, ["❌ Error: Unsupported audio format '" ++ (file_extension ++ "'."),
               "📋 Supported formats: " ++
                 String.intercalate ", " (sortStrings supported_formats)])
    else
      (true, [])

/-- Sorting the allow-list and joining with `", "` yields the fixed sorted
line the code prints. -/
theorem sorted_formats_join :
    String.intercalate ", " (sortStrings supported_formats) =
      ".m4a, .mp3, .mp4, .mpeg, .mpga, .wav, .webm" := by
  rfl

/-! ## Claims C1, C7, C8: the validator -/

/-- Claim C7: for every path not present on the filesystem the validator
returns `false` and prints exactly one "does not exist" diagnostic naming
the path; the extension is never consulted (the output is this single line
whatever the suffix, and no format diagnostic appears). -/
theorem validate_missing_file (path_exists : String → Bool) (p : String)
    (h : path_exists p = false) :
    validate_audio_file path_exists p =
      (false, ["❌ Error: File '" ++ (p ++ "' does not exist.")]) := by
  simp [validate_audio_file, h]

theorem validate_missing_file_witness :
    (fun _ : String => false) "missing.mp3" = false ∧
      validate_audio_file (fun _ => false) "missing.mp3" =
        (false, ["❌ Error: File 'missing.mp3' does not exist."]) :=
  ⟨rfl, validate_missing_file (fun _ => false) "missing.mp3" rfl⟩

/-- Claim C1: for every existing path whose lower-cased extension is outside
the 7-element allow-list, the validator returns `false` and prints an
"Unsupported audio format" diagnostic followed by the allow-list joined in
sorted order. -/
theorem validate_bad_extension (path_exists : String → Bool) (p : String)
    (hex : path_exists p = true)
    (hfmt : lowerStr (file_suffix p) ∉ supported_formats) :
    validate_audio_file path_exists p =
      (false,
        ["❌ Error: Unsupported audio format '" ++ (lowerStr (file_suffix p) ++ "'."),
         "📋 Supported formats: .m4a, .mp3, .mp4, .mpeg, .mpga, .wav, .webm"]) := by
  simp only [validate_audio_file, hex, hfmt, sorted_formats_join]
  simp [hfmt]

theorem validate_bad_extension_witness :
    (fun _ : String => true) "notes.txt" = true ∧
      lowerStr (file_suffix "notes.txt") ∉ supported_formats ∧
      validate_audio_file (fun _ => true) "notes.txt" =
        (false,
          ["❌ Error: Unsupported audio format '.txt'.",
           "📋 Supported formats: .m4a, .mp3, .mp4, .mpeg, .mpga, .wav, .webm"]) :=
  ⟨rfl, by decide, validate_bad_extension (fun _ => true) "notes.txt" rfl (by decide)⟩

/-- Claim C8: for every existing path whose lower-cased extension is in the
allow-list the validator returns `true` with no diagnostics.  The model's
filesystem is a pure existence predicate — the code reads nothing but
`os.path.exists` and the path string, so acceptance is independent of file
content, and the returned diagnostic list (here empty) is its only effect. -/
theorem validate_accepts (path_exists : String → Bool) (p : String)
    (hex : path_exists p = true)
    (hfmt : lowerStr (file_suffix p) ∈ supported_formats) :
    validate_audio_file path_exists p = (true, []) := by
  simp [validate_audio_file, hex, hfmt]

theorem validate_accepts_witness :
    (fun _ : String => true) "CLIP.MP3" = true ∧
      lowerStr (file_suffix "CLIP.MP3") ∈ supported_formats ∧
      validate_audio_file (fun _ => true) "CLIP.MP3" = (true, []) :=
  ⟨rfl, by decide, validate_accepts (fun _ => true) "CLIP.MP3" rfl (by decide)⟩

/-! ## `patched_load_audio`: decoding and normalizing samples

`np.frombuffer(out, np.int16)` reinterprets consecutive byte pairs of the
decoder's stdout as little-endian 16-bit signed integers; `astype(float32) /
32768.0` divides each by 32768.  Every quotient `v / 32768` with `v` a
16-bit integer is exactly representable in binary32, so `ℚ` models the
float arithmetic exactly. -/

/-- One little-endian byte pair as a signed 16-bit integer. -/
def bytesToInt16 (lo hi : Nat) : Int :=
  if lo + 256 * hi < 32768 then ((lo + 256 * hi : Nat) : Int)
  else ((lo + 256 * hi : Nat) : Int) - 65536

/-- `np.frombuffer(out, np.int16)` over a byte list (a trailing odd byte
cannot occur: numpy rejects buffers not divisible by the item size). -/
def s16le_to_ints : List Nat → List Int
  | lo :: hi :: rest => bytesToInt16 lo hi :: s16le_to_ints rest
  | _ => []

/-- `.astype(np.float32) / 32768.0` applied to the reinterpreted buffer. -/
def normalize_samples (out : List Nat) : List ℚ :=
  (s16le_to_ints out).map (fun (v : Int) => (v : ℚ) / 32768)

/-- Outcome of `subprocess.run(cmd, capture_output=True, check=True)`. -/
structure SubprocResult where
  returncode : Nat
  stdout : List Nat
  stderr : String

/-- `patched_load_audio`: with `check=True` a non-zero exit raises
`CalledProcessError`, re-raised as
`RuntimeError(f"Failed to load audio: {e.stderr.decode()}")`; otherwise the
stdout bytes are decoded and normalized. -/
def patched_load_audio (res : SubprocResult) : Except String (List ℚ) :=
  if res.returncode ≠ 0 then .error ("Failed to load audio: " ++ res.stderr)
  else .ok (normalize_samples res.stdout)

theorem bytesToInt16_bounds (lo hi : Nat) (hlo : lo < 256) (hhi : hi < 256) :
    -32768 ≤ bytesToInt16 lo hi ∧ bytesToInt16 lo hi ≤ 32767 := by
  unfold bytesToInt16
  split <;> omega

theorem s16le_to_ints_bounds : ∀ (bytes : List Nat), (∀ b ∈ bytes, b < 256) →
    ∀ v ∈ s16le_to_ints bytes, -32768 ≤ v ∧ v ≤ 32767
  | [], _ => by simp [s16le_to_ints]
  | [_], _ => by simp [s16le_to_ints]
  | lo :: hi :: rest, h => by
    intro v hv
    simp only [s16le_to_ints, List.mem_cons] at hv
    rcases hv with hv | hv
    · subst hv
      exact bytesToInt16_bounds lo hi (h lo (by simp)) (h hi (by simp))
    · exact s16le_to_ints_bounds rest (fun b hb => h b (by simp [hb])) v hv

/-- Claim C2: the conversion maps each raw little-endian 16-bit value `v` to
exactly `v / 32768`; all outputs lie in `[-1, 1]`; raw `32767` (bytes
`FF 7F`) maps to `32767/32768 < 1`, raw `-32768` (bytes `00 80`) to exactly
`-1`, and raw `0` to `0`. -/
theorem patched_load_audio_normalization (bytes : List Nat)
    (hb : ∀ b ∈ bytes, b < 256) :
    (∀ q ∈ normalize_samples bytes, -1 ≤ q ∧ q ≤ 1)
    ∧ (∀ lo hi : Nat, normalize_samples [lo, hi] = [(bytesToInt16 lo hi : ℚ) / 32768])
    ∧ normalize_samples [255, 127] = [32767 / 32768]
    ∧ ((32767 : ℚ) / 32768) < 1
    ∧ normalize_samples [0, 128] = [(-1 : ℚ)]
    ∧ normalize_samples [0, 0] = [(0 : ℚ)] := by
  refine ⟨?_, ?_, ?_, by norm_num, ?_, ?_⟩
  · intro q hq
    unfold normalize_samples at hq
    obtain ⟨v, hv, hq'⟩ := List.exists_of_mem_map hq
    subst hq'
    have hvb := s16le_to_ints_bounds bytes hb v hv
    have h1 : ((-32768 : ℚ)) ≤ (v : ℚ) := by exact_mod_cast hvb.1
    have h2 : ((v : ℚ)) ≤ 32767 := by exact_mod_cast hvb.2
    constructor
    · rw [le_div_iff₀ (by norm_num : (0:ℚ) < 32768)]
      linarith
    · rw [div_le_one (by norm_num : (0:ℚ) < 32768)]
      linarith
  · intro lo hi
    simp [normalize_samples, s16le_to_ints]
  · norm_num [normalize_samples, s16le_to_ints, bytesToInt16]
  · norm_num [normalize_samples, s16le_to_ints, bytesToInt16]
  · norm_num [normalize_samples, s16le_to_ints, bytesToInt16]

theorem patched_load_audio_normalization_witness :
    (∀ b ∈ [255, 127], b < 256) ∧
      (∀ q ∈ normalize_samples [255, 127], -1 ≤ q ∧ q ≤ 1) :=
  ⟨by decide, (patched_load_audio_normalization [255, 127] (by decide)).1⟩

/-! ## Observable effects and the external library -/

/-- An observable side effect of a run: a printed line, a file written
(`open(name, "w", encoding="utf-8")` followed by `write`), or an attempt to
load a model artifact (`whisper.load_model`). -/
inductive Event where
  | print (s : String)
  | writeFile (name content : String)
  | loadModel (size : String)
  deriving DecidableEq, Repr

/-- A Python exception as discriminated by the handlers of
`transcribe_audio`: `FileNotFoundError`, `RuntimeError` (carrying
`str(e)`), or any other `Exception` (carrying `str(e)`). -/
inductive PyErr where
  | fileNotFound
  | runtimeError (msg : String)
  | otherErr (msg : String)
  deriving DecidableEq, Repr

/-- Behaviour of the opaque `whisper` library in one run: what
`whisper.load_model(size)` does, and what
`model.transcribe(path, language="bn")["text"]` yields. -/
structure WhisperWorld where
  load_model : String → Except PyErr Unit
  transcribe_text : String → Except PyErr String

/-- The diagnostic printed by the `except` clause that handles `e`. -/
def except_message (audio_path : String) : PyErr → String
  | .fileNotFound => "❌ Error: Audio file '" ++ (audio_path ++ "' not found.")
  | .runtimeError m => "❌ Error: Failed to load Whisper model. " ++ m
  | .otherErr m => "❌ Error during transcription: " ++ m

/-- The 60-character `=` banner (`"="*60`). -/
def banner60 : String := ⟨List.replicate 60 '='⟩

/-- The characters `str.strip()` removes (ASCII part; the further Unicode
space characters Python also strips never border a transcript in any claim
considered here). -/
def isPyWhitespace (c : Char) : Bool :=
  c == ' ' || c == '\t' || c == '\n' || c == '\r' ||
    c == Char.ofNat 11 || c == Char.ofNat 12

/-- `result["text"].strip()`. -/
def pyStrip (s : String) : String :=
  ⟨((s.data.dropWhile isPyWhitespace).reverse.dropWhile
      isPyWhitespace).reverse⟩

/-- `transcribe_audio(audio_path, model_size, save_output)`: the returned
transcript (`None` on any caught exception) and the trace of effects, in
program order. -/
def transcribe_audio (w : WhisperWorld) (audio_path model_size : String)
    (save_output : Bool) : Option String × List Event :=
  let evs0 : List Event :=
    [.print ("🔄 Loading Whisper model '" ++ (model_size ++ "'...")),
     .loadModel model_size]
  match w.load_model model_size with
  | .error e => (none, evs0 ++ [.print (except_message audio_path e)])
  | .ok _ =>
    let evs1 := evs0 ++
      [.print ("🎤 Transcribing audio file: " ++ basename audio_path),
       .print "⏱️  This may take a few minutes depending on file size..."]
    match w.transcribe_text audio_path with
    | .error e => (none, evs1 ++ [.print (except_message audio_path e)])
    | .ok text =>
      let transcription := pyStrip text
      let evs2 := evs1 ++
        [.print ("\n" ++ banner60), .print "📝 BANGLA TRANSCRIPTION:",
         .print banner60, .print transcription, .print banner60]
      if save_output then
        (some transcription,
         evs2 ++ [.writeFile "output.txt" transcription,
                  .print "\n💾 Transcription saved to: output.txt"])
      else
        (some transcription, evs2)

/-- `setup_ffmpeg_windows()`: the locator collaborator either yields a path
(printing the configured message) or is absent (printing a warning).  Its
environment-variable writes are not modelled; no claim touches them. -/
def setup_ffmpeg_windows (ffmpeg : Option String) :
    Option String × List Event :=
  match ffmpeg with
  | some p => (some p, [.print ("✅ FFmpeg configured: " ++ basename p)])
  | none =>
    (none,
     [.print "⚠️  Warning: imageio-ffmpeg not found, FFmpeg may not work properly"])

/-- Command-line arguments once `argparse` has succeeded (`-h` and malformed
invocations stop inside `argparse` before `main`'s body). -/
structure Args where
  audio_file : String
  model : String
  output : Bool
  verbose : Bool

/-- External state a run depends on: whether `import whisper` succeeds,
whether `import imageio_ffmpeg` succeeds (and the path it yields), the
filesystem, and the whisper library's behaviour. -/
structure World where
  whisper_available : Bool
  imageio_ffmpeg : Option String
  path_exists : String → Bool
  whisper : WhisperWorld

/-- The whole process: the `import whisper` guard, then `main()`.  Returns
the process exit code (`sys.exit(1)`, or 0 on falling off `main`) and the
effect trace. -/
def program (w : World) (args : Args) : Nat × List Event :=
  if !w.whisper_available then
    (1, [.print "❌ Error: OpenAI Whisper is not installed. Please install it using:",
         .print "   pip install openai-whisper"])
  else
    let setup := setup_ffmpeg_windows w.imageio_ffmpeg
    let v := validate_audio_file w.path_exists args.audio_file
    if !v.1 then
      (1, setup.2 ++ v.2.map Event.print)
    else
      let t := transcribe_audio w.whisper args.audio_file args.model args.output
      match t.1 with
      | none => (1, setup.2 ++ v.2.map Event.print ++ t.2)
      | some transcription =>
        (0, setup.2 ++ v.2.map Event.print ++ t.2 ++
            [.print "\n✅ Transcription completed successfully!",
             .print ("📁 Audio file: " ++ args.audio_file),
             .print ("🤖 Model used: " ++ args.model),
             .print ("📝 Text length: " ++
               (toString transcription.length ++ " characters"))] ++
            (if args.verbose then
               [.print ("🔧 FFmpeg path: " ++
                  (match setup.1 with
                   | some p => if p.isEmpty then "System default" else p
                   | none => "System default")),
                .print "🎯 Language: Bengali (bn)"]
             else []))

/-- Final filesystem contents after a trace: `open(name, "w")` + `write`
replaces the named file's content unconditionally. -/
def applyEvents (files : String → Option String) :
    List Event → (String → Option String)
  | [] => files
  | .writeFile n c :: rest =>
      applyEvents (fun k => if k = n then some c else files k) rest
  | .print _ :: rest => applyEvents files rest
  | .loadModel _ :: rest => applyEvents files rest

theorem applyEvents_append :
    ∀ (e₁ : List Event) (files : String → Option String) (e₂ : List Event),
      applyEvents files (e₁ ++ e₂) = applyEvents (applyEvents files e₁) e₂
  | [], _, _ => rfl
  | .writeFile n c :: rest, files, e₂ => by
      simp only [List.cons_append, applyEvents]
      exact applyEvents_append rest _ e₂
  | .print s :: rest, files, e₂ => by
      simp only [List.cons_append, applyEvents]
      exact applyEvents_append rest _ e₂
  | .loadModel s :: rest, files, e₂ => by
      simp only [List.cons_append, applyEvents]
      exact applyEvents_append rest _ e₂

theorem applyEvents_no_write :
    ∀ (evs : List Event) (files : String → Option String),
      (∀ n c, Event.writeFile n c ∉ evs) → applyEvents files evs = files
  | [], _, _ => rfl
  | .writeFile n c :: rest, _, h => ((h n c) (by simp)).elim
  | .print s :: rest, files, h => by
      simp only [applyEvents]
      exact applyEvents_no_write rest files
        (fun n c hc => h n c (by simp [hc]))
  | .loadModel s :: rest, files, h => by
      simp only [applyEvents]
      exact applyEvents_no_write rest files
        (fun n c hc => h n c (by simp [hc]))

/-- When the validator accepts, it produces `(true, [])`. -/
theorem validate_true_form (path_exists : String → Bool) (p : String)
    (h : (validate_audio_file path_exists p).1 = true) :
    validate_audio_file path_exists p = (true, []) := by
  unfold validate_audio_file at h ⊢
  by_cases hpe : path_exists p
  · by_cases hc : lowerStr (file_suffix p) ∈ supported_formats
    · simp [hpe, hc]
    · simp [hpe, hc] at h
  · simp [hpe] at h

/-! ## String prefix reasoning for diagnostic distinctness -/

theorem string_data_append (s t : String) : (s ++ t).data = s.data ++ t.data :=
  rfl

/-- Two strings built from fixed prefixes that already differ within their
first `n` characters are different, whatever the suffixes. -/
theorem string_append_ne (p₁ p₂ s₁ s₂ : String) (n : Nat)
    (h₁ : n ≤ p₁.data.length) (h₂ : n ≤ p₂.data.length)
    (hne : p₁.data.take n ≠ p₂.data.take n) :
    p₁ ++ s₁ ≠ p₂ ++ s₂ := by
  intro he
  apply hne
  have hd : p₁.data ++ s₁.data = p₂.data ++ s₂.data := by
    have h := congrArg String.data he
    rwa [string_data_append, string_data_append] at h
  have ht := congrArg (List.take n) hd
  rw [List.take_append_eq_append_take, List.take_append_eq_append_take,
    Nat.sub_eq_zero_of_le h₁, Nat.sub_eq_zero_of_le h₂] at ht
  simpa using ht

/-! ## Claim C6: the runner converts every failure to `None`, with three
distinct diagnostics -/

/-- Claim C6: whether the failure is raised while loading the model or
while transcribing, `transcribe_audio` returns `None` and prints the
handler's diagnostic; and the three handlers' messages (`FileNotFoundError`,
`RuntimeError`, generic `Exception`) are pairwise distinct for every
payload. -/
theorem transcribe_audio_catches (w : WhisperWorld) (path size : String)
    (save : Bool) (e : PyErr)
    (h : w.load_model size = .error e ∨
      (w.load_model size = .ok () ∧ w.transcribe_text path = .error e)) :
    (transcribe_audio w path size save).1 = none
    ∧ Event.print (except_message path e) ∈ (transcribe_audio w path size save).2
    ∧ (∀ m, except_message path .fileNotFound ≠ except_message path (.runtimeError m))
    ∧ (∀ m₁ m₂, except_message path (.runtimeError m₁) ≠ except_message path (.otherErr m₂))
    ∧ (∀ m, except_message path .fileNotFound ≠ except_message path (.otherErr m)) := by
  refine ⟨?_, ?_, ?_, ?_, ?_⟩
  · rcases h with h | ⟨h1, h2⟩
    · simp [transcribe_audio, h]
    · simp [transcribe_audio, h1, h2]
  · rcases h with h | ⟨h1, h2⟩
    · simp [transcribe_audio, h]
    · simp [transcribe_audio, h1, h2]
  · intro m
    exact string_append_ne _ _ _ _ 10 (by decide) (by decide) (by decide)
  · intro m₁ m₂
    exact string_append_ne _ _ _ _ 10 (by decide) (by decide) (by decide)
  · intro m
    exact string_append_ne _ _ _ _ 10 (by decide) (by decide) (by decide)

theorem transcribe_audio_catches_witness :
    (WhisperWorld.load_model
        ⟨fun _ => .error .fileNotFound, fun _ => .ok ""⟩ "base" =
      .error PyErr.fileNotFound) ∧
    (transcribe_audio ⟨fun _ => .error .fileNotFound, fun _ => .ok ""⟩
        "a.mp3" "base" false).1 = none :=
  ⟨rfl,
    (transcribe_audio_catches ⟨fun _ => .error .fileNotFound, fun _ => .ok ""⟩
      "a.mp3" "base" false .fileNotFound (Or.inl rfl)).1⟩

/-! ## Claim C3: decoder subprocess failure -/

/-- Claim C3: when the decoder subprocess exits non-zero, the overridden
loader fails with a runtime error whose message carries the captured
standard-error text; when that runtime error surfaces from the transcribe
call, the runner returns `None` and the process exits 1. -/
theorem decoder_failure_aborts (res : SubprocResult) (w : World) (args : Args)
    (hrc : res.returncode ≠ 0)
    (hav : w.whisper_available = true)
    (hval : (validate_audio_file w.path_exists args.audio_file).1 = true)
    (hload : w.whisper.load_model args.model = .ok ())
    (htr : w.whisper.transcribe_text args.audio_file =
      .error (.runtimeError ("Failed to load audio: " ++ res.stderr))) :
    patched_load_audio res = .error ("Failed to load audio: " ++ res.stderr)
    ∧ (transcribe_audio w.whisper args.audio_file args.model args.output).1 = none
    ∧ (program w args).1 = 1 := by
  have hv := validate_true_form _ _ hval
  have ht : (transcribe_audio w.whisper args.audio_file args.model args.output).1
      = none := by
    simp [transcribe_audio, hload, htr]
  refine ⟨by simp [patched_load_audio, hrc], ht, ?_⟩
  simp [program, hav, hv, ht]

theorem decoder_failure_aborts_witness :
    (1 : Nat) ≠ 0 ∧
    (validate_audio_file (fun _ => true) "a.mp3").1 = true ∧
    (program
        ⟨true, none, fun _ => true,
          ⟨fun _ => .ok (),
           fun _ => .error (.runtimeError ("Failed to load audio: " ++ "boom"))⟩⟩
        ⟨"a.mp3", "base", false, false⟩).1 = 1 :=
  ⟨by decide, by decide,
    (decoder_failure_aborts ⟨1, [], "boom"⟩
      ⟨true, none, fun _ => true,
        ⟨fun _ => .ok (),
         fun _ => .error (.runtimeError ("Failed to load audio: " ++ "boom"))⟩⟩
      ⟨"a.mp3", "base", false, false⟩
      (by decide) rfl (by decide) rfl rfl).2.2⟩

/-! ## Claim C4: exit codes -/

/-- Claim C4: the process exits 0 or 1; it exits 1 exactly when the whisper
library is missing, validation fails, or the runner returns `None`; and when
validation fails no model-load attempt appears in the trace. -/
theorem exit_code_cases (w : World) (args : Args) :
    ((program w args).1 = 0 ∨ (program w args).1 = 1)
    ∧ ((program w args).1 = 1 ↔
        (w.whisper_available = false
         ∨ (validate_audio_file w.path_exists args.audio_file).1 = false
         ∨ (transcribe_audio w.whisper args.audio_file args.model
              args.output).1 = none))
    ∧ ((validate_audio_file w.path_exists args.audio_file).1 = false →
        ∀ s, Event.loadModel s ∉ (program w args).2) := by
  rcases hA : w.whisper_available with _ | _
  · refine ⟨Or.inr (by simp [program, hA]), by simp [program, hA], ?_⟩
    intro _ s
    simp [program, hA]
  · rcases hV : (validate_audio_file w.path_exists args.audio_file).1 with _ | _
    · refine ⟨Or.inr (by simp [program, hA, hV]), by simp [program, hA, hV], ?_⟩
      intro _ s
      rcases hF : w.imageio_ffmpeg with _ | pth <;>
        simp [program, hA, hV, setup_ffmpeg_windows, hF, List.mem_map]
    · have hv := validate_true_form _ _ hV
      rcases hT : (transcribe_audio w.whisper args.audio_file args.model
          args.output).1 with _ | t
      · exact ⟨Or.inr (by simp [program, hA, hv, hT]),
          by simp [program, hA, hv, hT],
          fun hcon => absurd hcon (by decide)⟩
      · exact ⟨Or.inl (by simp [program, hA, hv, hT]),
          by simp [program, hA, hv, hT],
          fun hcon => absurd hcon (by decide)⟩

theorem exit_code_cases_witness :
    (validate_audio_file (fun _ => false) "missing.mp3").1 = false ∧
    (program ⟨true, none, fun _ => false,
        ⟨fun _ => .ok (), fun _ => .ok "hi"⟩⟩
      ⟨"missing.mp3", "base", false, false⟩).1 = 1 ∧
    Event.loadModel "base" ∉
      (program ⟨true, none, fun _ => false,
          ⟨fun _ => .ok (), fun _ => .ok "hi"⟩⟩
        ⟨"missing.mp3", "base", false, false⟩).2 :=
  ⟨by decide,
    (exit_code_cases ⟨true, none, fun _ => false,
        ⟨fun _ => .ok (), fun _ => .ok "hi"⟩⟩
      ⟨"missing.mp3", "base", false, false⟩).2.1.mpr
        (Or.inr (Or.inl (by decide))),
    (exit_code_cases ⟨true, none, fun _ => false,
        ⟨fun _ => .ok (), fun _ => .ok "hi"⟩⟩
      ⟨"missing.mp3", "base", false, false⟩).2.2 (by decide) "base"⟩

/-! ## Claim C5: the persistence flag writes `output.txt` -/

/-- Claim C5: with the persistence flag set and a successful transcription,
the run ends with exit code 0 and the final filesystem maps `output.txt` to
exactly the stripped transcript — whatever the file held before (the
`"w"`-mode write overwrites unconditionally), with no banner text or other
metadata added. -/
theorem save_flag_writes (w : World) (args : Args)
    (files : String → Option String) (text : String)
    (hav : w.whisper_available = true)
    (hval : (validate_audio_file w.path_exists args.audio_file).1 = true)
    (hout : args.output = true)
    (hload : w.whisper.load_model args.model = .ok ())
    (htr : w.whisper.transcribe_text args.audio_file = .ok text) :
    (program w args).1 = 0
    ∧ (transcribe_audio w.whisper args.audio_file args.model args.output).1
        = some (pyStrip text)
    ∧ applyEvents files (program w args).2 "output.txt" = some (pyStrip text) := by
  have hv := validate_true_form _ _ hval
  refine ⟨?_, ?_, ?_⟩
  · simp [program, hav, hv, transcribe_audio, hload, htr, hout]
  · simp [transcribe_audio, hload, htr, hout]
  · rcases hF : w.imageio_ffmpeg with _ | pth <;>
      rcases hvb : args.verbose with _ | _ <;>
      simp [program, hav, hv, transcribe_audio, hload, htr, hout,
        setup_ffmpeg_windows, hF, hvb, applyEvents]

theorem save_flag_writes_witness :
    (validate_audio_file (fun _ => true) "a.mp3").1 = true ∧
    applyEvents (fun _ => some "old")
        (program ⟨true, none, fun _ => true,
            ⟨fun _ => .ok (), fun _ => .ok " hello "⟩⟩
          ⟨"a.mp3", "base", true, false⟩).2 "output.txt"
      = some (pyStrip " hello ") :=
  ⟨by decide,
    (save_flag_writes
      ⟨true, none, fun _ => true, ⟨fun _ => .ok (), fun _ => .ok " hello "⟩⟩
      ⟨"a.mp3", "base", true, false⟩ (fun _ => some "old") " hello "
      rfl (by decide) rfl rfl rfl).2.2⟩

/-! ## Claim C9: without the flag no file is written -/

theorem transcribe_audio_no_write (ww : WhisperWorld) (path size : String) :
    ∀ n c, Event.writeFile n c ∉ (transcribe_audio ww path size false).2 := by
  intro n c
  rcases hL : ww.load_model size with e | u
  · simp [transcribe_audio, hL]
  · rcases hT : ww.transcribe_text path with e | txt <;>
      simp [transcribe_audio, hL, hT]

theorem program_no_write (w : World) (args : Args)
    (hout : args.output = false) :
    ∀ n c, Event.writeFile n c ∉ (program w args).2 := by
  intro n c
  rcases hA : w.whisper_available with _ | _
  · simp [program, hA]
  · rcases hV : (validate_audio_file w.path_exists args.audio_file).1 with _ | _
    · rcases hF : w.imageio_ffmpeg with _ | pth <;>
        simp [program, hA, hV, setup_ffmpeg_windows, hF]
    · have hv := validate_true_form _ _ hV
      have hnw := transcribe_audio_no_write w.whisper args.audio_file args.model n c
      rcases hF : w.imageio_ffmpeg with _ | pth <;>
        rcases hvb : args.verbose with _ | _ <;>
        rcases hT : (transcribe_audio w.whisper args.audio_file args.model
            false).1 with _ | t <;>
        simp [program, hA, hv, hout, hT, setup_ffmpeg_windows, hF, hvb, hnw]

/-- Claim C9: when the persistence flag is unset, a run leaves every file —
`output.txt` included — exactly as it was, whether transcription succeeds
or fails. -/
theorem no_flag_files_unchanged (w : World) (args : Args)
    (files : String → Option String) (hout : args.output = false) :
    ∀ n, applyEvents files (program w args).2 n = files n := by
  intro n
  rw [applyEvents_no_write _ _ (program_no_write w args hout)]

theorem no_flag_files_unchanged_witness :
    applyEvents (fun _ => some "old")
        (program ⟨true, none, fun _ => true,
            ⟨fun _ => .ok (), fun _ => .ok "hi"⟩⟩
          ⟨"a.mp3", "base", false, false⟩).2 "output.txt"
      = some "old" :=
  no_flag_files_unchanged
    ⟨true, none, fun _ => true, ⟨fun _ => .ok (), fun _ => .ok "hi"⟩⟩
    ⟨"a.mp3", "base", false, false⟩ (fun _ => some "old") rfl "output.txt"

/-! ## Claim C10: an empty stripped transcript still counts as success -/

/-- Claim C10: if transcription succeeds but the text strips to the empty
string, the runner returns `some ""` (not `None`), the process prints the
success summary and exits 0, and with the persistence flag an empty
`output.txt` is written; exit code 1 would require a `None` return. -/
theorem empty_transcript_success (w : World) (args : Args)
    (files : String → Option String) (text : String)
    (hav : w.whisper_available = true)
    (hval : (validate_audio_file w.path_exists args.audio_file).1 = true)
    (hload : w.whisper.load_model args.model = .ok ())
    (htr : w.whisper.transcribe_text args.audio_file = .ok text)
    (hemp : pyStrip text = "") :
    (transcribe_audio w.whisper args.audio_file args.model args.output).1
        = some ""
    ∧ (program w args).1 = 0
    ∧ Event.print "\n✅ Transcription completed successfully!" ∈ (program w args).2
    ∧ (args.output = true →
        applyEvents files (program w args).2 "output.txt" = some "") := by
  have hv := validate_true_form _ _ hval
  refine ⟨?_, ?_, ?_, ?_⟩
  · rcases hob : args.output with _ | _ <;>
      simp [transcribe_audio, hload, htr, hemp, hob]
  · rcases hob : args.output with _ | _ <;>
      simp [program, hav, hv, transcribe_audio, hload, htr, hemp, hob]
  · rcases hob : args.output with _ | _ <;>
      rcases hF : w.imageio_ffmpeg with _ | pth <;>
      rcases hvb : args.verbose with _ | _ <;>
      simp [program, hav, hv, transcribe_audio, hload, htr, hemp, hob,
        setup_ffmpeg_windows, hF, hvb]
  · intro hout
    rcases hF : w.imageio_ffmpeg with _ | pth <;>
      rcases hvb : args.verbose with _ | _ <;>
      simp [program, hav, hv, transcribe_audio, hload, htr, hemp, hout,
        setup_ffmpeg_windows, hF, hvb, applyEvents]

theorem empty_transcript_success_witness :
    (validate_audio_file (fun _ => true) "a.mp3").1 = true ∧
    pyStrip "  " = "" ∧
    (program ⟨true, none, fun _ => true,
        ⟨fun _ => .ok (), fun _ => .ok "  "⟩⟩
      ⟨"a.mp3", "base", true, false⟩).1 = 0 ∧
    applyEvents (fun _ => some "old")
        (program ⟨true, none, fun _ => true,
            ⟨fun _ => .ok (), fun _ => .ok "  "⟩⟩
          ⟨"a.mp3", "base", true, false⟩).2 "output.txt"
      = some "" :=
  ⟨by decide, rfl,
    (empty_transcript_success
      ⟨true, none, fun _ => true, ⟨fun _ => .ok (), fun _ => .ok "  "⟩⟩
      ⟨"a.mp3", "base", true, false⟩ (fun _ => some "old") "  "
      rfl (by decide) rfl rfl rfl).2.1,
    (empty_transcript_success
      ⟨true, none, fun _ => true, ⟨fun _ => .ok (), fun _ => .ok "  "⟩⟩
      ⟨"a.mp3", "base", true, false⟩ (fun _ => some "old") "  "
      rfl (by decide) rfl rfl rfl).2.2.2 rfl⟩
